import Mathlib

/-!
Shallow embedding of the PCPartPicker core: the compatibility rule module
(pcbuilder/compat.py), the component and build data model
(pcbuilder/models.py), and the share-key allocation loop of the build
persistence module (pcbuilder/db.py), together with theorems settling the
frozen claims about them.
-/

namespace PCB

/-! Attribute values: the Python scalars that occur in component attribute
maps. Strings and integers are modelled; float attributes do not occur in
the data paths the claims exercise. -/

inductive AttrVal where
  | vInt (n : Int)
  | vStr (s : String)
  deriving DecidableEq

def pyIsSpace (c : Char) : Bool :=
  c == ' ' || c == '\t' || c == '\n' || c == '\r'

def digitsVal (l : List Char) : Option Nat :=
  match l with
  | [] => none
  | _ =>
    if l.all Char.isDigit then
      some (l.foldl (fun a c => a * 10 + (c.toNat - '0'.toNat)) 0)
    else none

def parseIntChars : List Char → Option Int
  | '+' :: rest => (digitsVal rest).map Int.ofNat
  | '-' :: rest => (digitsVal rest).map (fun n => -(n : Int))
  | l => (digitsVal l).map Int.ofNat

/-- Models the Python builtin int() applied to a string: surrounding
whitespace is stripped, an optional sign is followed by decimal digits,
and anything else raises ValueError (modelled as none). -/
def parseIntStr (s : String) : Option Int :=
  parseIntChars (((s.data.dropWhile pyIsSpace).reverse.dropWhile pyIsSpace).reverse)

/-- Models the Python builtin int() applied to an attribute value. -/
def pyInt : AttrVal → Option Int
  | .vInt n => some n
  | .vStr s => parseIntStr s

/-- Models Python f-string rendering of an attribute value. -/
def pyStrV : AttrVal → String
  | .vInt n => toString n
  | .vStr s => s

/-- Models Python f-string rendering of a value that may be None. -/
def pyStr : Option AttrVal → String
  | none => "None"
  | some v => pyStrV v

def attrsGet (l : List (String × AttrVal)) (k : String) : Option AttrVal :=
  l.lookup k

/-- A raw part record as passed to the compat module: only the attributes
sub-dict is read by the checks. -/
structure Part where
  attrs : List (String × AttrVal)
  deriving DecidableEq

def partAttr (p : Part) (k : String) : Option AttrVal :=
  attrsGet p.attrs k

/-- The parts mapping given to the rule engine: category name to part or
None, in Python dict iteration order. -/
def PartsMap : Type := List (String × Option Part)

/-- Models parts.get(k): none both for a missing key and for a stored None. -/
def partsGet (parts : PartsMap) (k : String) : Option Part :=
  match List.lookup k parts with
  | some (some p) => some p
  | _ => none

/-! The rule functions of pcbuilder/compat.py. -/

def check_cpu_mobo (cpu mobo : Option Part) : Bool × String :=
  match cpu, mobo with
  | some cpu, some mobo =>
    let cpuSocket := partAttr cpu "socket"
    let moboSocket := partAttr mobo "socket"
    if cpuSocket ≠ moboSocket then
      (false, "CPU socket " ++ pyStr cpuSocket ++ " does not match motherboard socket " ++ pyStr moboSocket)
    else
      (true, "CPU and motherboard sockets match")
  | _, _ => (true, "CPU or motherboard missing - cannot check socket")

def check_ram_mobo (ram mobo : Option Part) : Bool × String :=
  match ram, mobo with
  | some ram, some mobo =>
    let ramType := partAttr ram "memory_type"
    let moboMem := partAttr mobo "memory_type"
    if ramType ≠ moboMem then
      (false, "RAM type " ++ pyStr ramType ++ " does not match motherboard supported " ++ pyStr moboMem)
    else
      -- try: slots = int(attributes.get memory_slots default 0);
      --      sticks = int(attributes.get sticks default 1)
      -- an int() failure aborts the stick/slot comparison (except: pass)
      match pyInt ((partAttr mobo "memory_slots").getD (.vInt 0)) with
      | none => (true, "RAM appears compatible with motherboard")
      | some slots =>
        match pyInt ((partAttr ram "sticks").getD (.vInt 1)) with
        | none => (true, "RAM appears compatible with motherboard")
        | some sticks =>
          if sticks > slots then
            (false, "RAM sticks (" ++ toString sticks ++ ") exceed motherboard slots (" ++ toString slots ++ ")")
          else (true, "RAM appears compatible with motherboard")
  | _, _ => (true, "RAM or motherboard missing - cannot check memory type")

/-- Models Python str.split with a comma separator. -/
def splitCommaAux : List Char → List (List Char)
  | [] => [[]]
  | c :: rest =>
    if c == ',' then [] :: splitCommaAux rest
    else
      match splitCommaAux rest with
      | [] => [[c]]
      | g :: gs => (c :: g) :: gs

def splitComma (s : String) : List String :=
  (splitCommaAux s.data).map String.mk

/-- The form-factor half of check_case_mobo_case_gpu, for a present mobo and
case. Python tests the truthiness of the supported_form_factors value first;
calling split on a truthy non-string raises AttributeError, modelled as an
error result. -/
def formFactorEntry (mobo cs : Part) : Except String (Bool × String) :=
  let moboForm := partAttr mobo "form_factor"
  match partAttr cs "supported_form_factors" with
  | none => .ok (true, "Motherboard fits case form factor")
  | some (.vInt n) =>
    if n = 0 then .ok (true, "Motherboard fits case form factor")
    else .error "AttributeError"
  | some (.vStr s) =>
    if s = "" then .ok (true, "Motherboard fits case form factor")
    else
      let member :=
        match moboForm with
        | some (.vStr mf) => (splitComma s).contains mf
        | _ => false
      if member then .ok (true, "Motherboard fits case form factor")
      else .ok (false, "Motherboard form factor " ++ pyStr moboForm ++ " not supported by case (" ++ s ++ ")")

/-- The GPU-length half of check_case_mobo_case_gpu; its try-except catches
any int() failure, so this half is total. -/
def gpuEntry (gpu cs : Part) : Bool × String :=
  match pyInt ((partAttr gpu "length_mm").getD (.vInt 0)) with
  | none => (true, "GPU / case length unknown - skipping check")
  | some gpuLen =>
    match pyInt ((partAttr cs "max_gpu_length_mm").getD (.vInt 0)) with
    | none => (true, "GPU / case length unknown - skipping check")
    | some maxLen =>
      if gpuLen > maxLen then
        (false, "GPU length " ++ toString gpuLen ++ "mm exceeds case max " ++ toString maxLen ++ "mm")
      else (true, "GPU fits in case")

/-- The GPU-side results list appended by check_case_mobo_case_gpu when
both a GPU and a case are present. -/
def caseGpuPart (gpu cs : Option Part) : List (Bool × String) :=
  match gpu, cs with
  | some g, some c => [gpuEntry g c]
  | _, _ => []

def check_case_mobo_case_gpu (mobo cs gpu : Option Part) : Except String (List (Bool × String)) :=
  match mobo, cs with
  | some m, some c =>
    match formFactorEntry m c with
    | .error e => .error e
    | .ok e1 => .ok (e1 :: caseGpuPart gpu cs)
  | _, _ => .ok (caseGpuPart gpu cs)

/-- One step of the power-draw accumulation loop of check_psu_wattage: a
present non-PSU entry contributes int(attributes.get power_draw default 0),
an int() failure contributing nothing. -/
def psuDrawStep (acc : Int) (kv : String × Option Part) : Int :=
  match kv.2 with
  | none => acc
  | some p =>
    if kv.1 = "PSU" then acc
    else acc + ((pyInt ((partAttr p "power_draw").getD (.vInt 0))).getD 0)

def psu_total_draw (parts : PartsMap) : Int :=
  parts.foldl psuDrawStep 0

def check_psu_wattage (parts : PartsMap) : Bool × String :=
  match partsGet parts "PSU" with
  | none => (false, "No PSU selected")
  | some psu =>
    match pyInt ((partAttr psu "wattage").getD (.vInt 0)) with
    | none => (false, "PSU wattage unknown")
    | some psuW =>
      let total := psu_total_draw parts
      -- required = int(total_draw * 1.25); 1.25 is exact in binary floating
      -- point, so the product is 5 * total / 4 exactly and int() truncates
      -- toward zero, which is Int.tdiv
      let required := Int.tdiv (total * 5) 4
      if psuW < required then
        (false, "PSU wattage " ++ toString psuW ++ "W insufficient for estimated draw "
          ++ toString total ++ "W (required with headroom: " ++ toString required ++ "W)")
      else (true, "PSU wattage appears sufficient")

def run_full_check (parts : PartsMap) : Except String (List (String × Bool × String)) :=
  match check_case_mobo_case_gpu (partsGet parts "Motherboard") (partsGet parts "Case") (partsGet parts "GPU") with
  | .error e => .error e
  | .ok caseResults =>
    .ok (("cpu_socket", check_cpu_mobo (partsGet parts "CPU") (partsGet parts "Motherboard"))
      :: ("ram_mobo", check_ram_mobo (partsGet parts "RAM") (partsGet parts "Motherboard"))
      :: (caseResults.enum.map (fun p => ("case_check_" ++ toString p.1, p.2))
          ++ [("psu_wattage", check_psu_wattage parts)]))

/-! Declarative companions used to state the claims about the PSU rule and
the report shape. -/

/-- The power draw of one part as the PSU rule counts it. -/
def drawOf (p : Part) : Int :=
  (pyInt ((partAttr p "power_draw").getD (.vInt 0))).getD 0

/-- Declarative sum of the power_draw of every present non-PSU entry. -/
def sumPowerDraw (parts : PartsMap) : Int :=
  (((parts.filter (fun kv => kv.1 != "PSU")).filterMap Prod.snd).map drawOf).sum

/-- How many case_check entries the report contains for a given mapping. -/
def numCaseChecks (parts : PartsMap) : Nat :=
  (if (partsGet parts "Motherboard").isSome && (partsGet parts "Case").isSome then 1 else 0)
    + (if (partsGet parts "GPU").isSome && (partsGet parts "Case").isSome then 1 else 0)

/-! The data model of pcbuilder/models.py. -/

inductive Cat where
  | CPU | Motherboard | RAM | GPU | Storage | PSU | PCCase | Cooler
  deriving DecidableEq

/-- The value of the ComponentCategory enum member fixed by each concrete
component class through get_category. -/
def catValue : Cat → String
  | .CPU => "CPU"
  | .Motherboard => "Motherboard"
  | .RAM => "RAM"
  | .GPU => "GPU"
  | .Storage => "Storage"
  | .PSU => "PSU"
  | .PCCase => "Case"
  | .Cooler => "Cooler"

/-- A constructed component: the cat field records the concrete class the
factory chose, which fixes get_category. -/
structure Component where
  id : String
  name : String
  cat : Cat
  price : ℚ
  attributes : List (String × AttrVal)
  deriving DecidableEq

/-- Component.get_attribute with an explicit default. -/
def getAttribute (c : Component) (k : String) (dflt : AttrVal) : AttrVal :=
  (attrsGet c.attributes k).getD dflt

/-- The serialized form produced by Component.to_dict. -/
structure SerializedComponent where
  id : String
  name : String
  category : String
  price : ℚ
  attributes : List (String × AttrVal)
  deriving DecidableEq

def to_dict (c : Component) : SerializedComponent :=
  ⟨c.id, c.name, catValue c.cat, c.price, c.attributes⟩

/-- ComponentFactory._component_map: category label to concrete class. -/
def componentMap : List (String × Cat) :=
  [("CPU", .CPU), ("Motherboard", .Motherboard), ("GPU", .GPU), ("RAM", .RAM),
   ("Storage", .Storage), ("PSU", .PSU), ("Case", .PCCase), ("Cooler", .Cooler)]

/-- ComponentFactory.create_component; none models the unknown-category
ValueError. -/
def create_component (cid nm category : String) (price : ℚ)
    (attrs : List (String × AttrVal)) : Option Component :=
  (componentMap.lookup category).map (fun c => ⟨cid, nm, c, price, attrs⟩)

/-- CPU.is_compatible_with applied to a Motherboard (socket comparison). -/
def cpuMoboCheck (cpu mobo : Component) : Bool × String :=
  let cpuSocket := getAttribute cpu "socket" (.vStr "")
  let mbSocket := getAttribute mobo "socket" (.vStr "")
  if cpuSocket = mbSocket then (true, "Compatible sockets")
  else (false, "Incompatible sockets: CPU " ++ pyStrV cpuSocket ++ " vs Motherboard " ++ pyStrV mbSocket)

def strContainsAux (sub : List Char) : List Char → Bool
  | [] => sub.isEmpty
  | c :: rest => sub.isPrefixOf (c :: rest) || strContainsAux sub rest

/-- Models the Python substring test for two strings. -/
def strContains (sub s : String) : Bool :=
  strContainsAux sub.data s.data

/-- Models the Python membership test of a string inside an arbitrary value;
a non-string container raises TypeError. -/
def inStrV (sub : String) (v : AttrVal) : Except String Bool :=
  match v with
  | .vStr s => .ok (strContains sub s)
  | .vInt _ => .error "TypeError"

/-- Motherboard.is_compatible_with applied to a RAM component. The Python
conjunctions short-circuit, so the ram_type value is only inspected when
the DDR marker occurs in the RAM name. -/
def moboRamCheck (mobo ram : Component) : Except String (Bool × String) :=
  let mbRamType := getAttribute mobo "ram_type" (.vStr "")
  match (if strContains "DDR5" ram.name then inStrV "DDR5" mbRamType else .ok false) with
  | .error e => .error e
  | .ok true => .ok (true, "Compatible RAM type (DDR5)")
  | .ok false =>
    match (if strContains "DDR4" ram.name then inStrV "DDR4" mbRamType else .ok false) with
    | .error e => .error e
    | .ok true => .ok (true, "Compatible RAM type (DDR4)")
    | .ok false => .ok (false, "Incompatible RAM types")

/-- Case.is_compatible_with applied to a Motherboard: the membership test
requires both form factors to be strings, else Python raises TypeError. -/
def caseMoboCheck (cs mobo : Component) : Except String (Bool × String) :=
  let caseFF := getAttribute cs "form_factor" (.vStr "")
  let mbFF := getAttribute mobo "form_factor" (.vStr "")
  match mbFF, caseFF with
  | .vStr mf, .vStr cf =>
    if strContains mf cf || mbFF == caseFF then .ok (true, "Compatible form factors")
    else .ok (false, "Incompatible: Case supports " ++ cf ++ ", Motherboard is " ++ mf)
  | _, _ => .error "TypeError"

/-- Component.is_compatible_with: the isinstance dispatch over the concrete
classes, with the documented asymmetric delegations. -/
def is_compatible_with (a b : Component) : Except String (Bool × String) :=
  match a.cat with
  | .CPU =>
    if b.cat = .Motherboard then .ok (cpuMoboCheck a b)
    else .ok (true, "No compatibility constraints")
  | .Motherboard =>
    if b.cat = .CPU then .ok (cpuMoboCheck b a)
    else if b.cat = .RAM then moboRamCheck a b
    else .ok (true, "No compatibility constraints")
  | .GPU =>
    if b.cat = .PSU then
      .ok (true, "GPU TDP: " ++ pyStrV (getAttribute a "tdp" (.vInt 0)) ++ "W")
    else .ok (true, "No compatibility constraints")
  | .RAM =>
    if b.cat = .Motherboard then moboRamCheck b a
    else .ok (true, "No compatibility constraints")
  | .Storage => .ok (true, "Storage is universally compatible")
  | .PSU => .ok (true, "PSU compatibility checked at build level")
  | .PCCase =>
    if b.cat = .Motherboard then caseMoboCheck a b
    else .ok (true, "No compatibility constraints")
  | .Cooler => .ok (true, "Cooler compatibility depends on socket and case clearance")

/-- The fixed slot keys of Build.__init__, in dict insertion order. -/
def categoryKeys : List String :=
  ["CPU", "Motherboard", "RAM", "GPU", "Storage", "PSU", "Case", "Cooler"]

structure Build where
  buildId : Option Int
  name : String
  userId : Int
  components : List (String × Option Component)
  shareKey : Option String
  deriving DecidableEq

/-- Build.__init__: no validation of the name is performed; every slot
starts empty. -/
def buildInit (bid : Option Int) (nm : String) (uid : Int) : Build :=
  { buildId := bid
    name := nm
    userId := uid
    components :=
      [("CPU", none), ("Motherboard", none), ("RAM", none), ("GPU", none),
       ("Storage", none), ("PSU", none), ("Case", none), ("Cooler", none)]
    shareKey := none }

/-- The Build.name setter: rejects an empty or short name with ValueError
(the build is left as it was), otherwise stores the new name. -/
def set_name (b : Build) (v : String) : Except String Build :=
  if v = "" || v.length < 3 then .error "Build name must be at least 3 characters"
  else .ok { b with name := v }

/-- Python dict assignment on an association list: replace the value at an
existing key in place, else append a new entry. -/
def dictSet (l : List (String × Option Component)) (k : String) (v : Option Component) :
    List (String × Option Component) :=
  match l with
  | [] => [(k, v)]
  | (k0, v0) :: rest =>
    if k0 = k then (k0, v) :: rest else (k0, v0) :: dictSet rest k v

/-- Build.add_component: stores the component under the key fixed by its
class, replacing any prior occupant. -/
def add_component (b : Build) (c : Component) : Build :=
  { b with components := dictSet b.components (catValue c.cat) (some c) }

/-- Build.remove_component: clears the slot when the key exists. -/
def remove_component (b : Build) (k : String) : Build :=
  { b with components :=
      if (List.lookup k b.components).isSome then dictSet b.components k none
      else b.components }

/-- One step of the Build.calculate_total_wattage loop: a present component
contributes its tdp attribute when that value is numeric. -/
def tdpStep (acc : Int) (kv : String × Option Component) : Int :=
  match kv.2 with
  | none => acc
  | some c =>
    match getAttribute c "tdp" (.vInt 0) with
    | .vInt n => acc + n
    | .vStr _ => acc

def calculate_total_wattage (b : Build) : Int :=
  b.components.foldl tdpStep 0

/-- The numeric tdp contribution of a single component, for the declarative
restatement of calculate_total_wattage. -/
def tdpOf (c : Component) : Int :=
  match getAttribute c "tdp" (.vInt 0) with
  | .vInt n => n
  | .vStr _ => 0

/-- The list comprehension of get_compatibility_issues: the present
components in slot order. -/
def presentComponents (b : Build) : List Component :=
  b.components.filterMap Prod.snd

def issueMsg (a b : Component) (msg : String) : String :=
  catValue a.cat ++ " <-> " ++ catValue b.cat ++ ": " ++ msg

/-- The inner loop of get_compatibility_issues: one fixed component checked
against every later one. -/
def scanOne (c : Component) : List Component → Except String (List String)
  | [] => .ok []
  | d :: ds =>
    match is_compatible_with c d with
    | .error e => .error e
    | .ok (compatible, msg) =>
      match scanOne c ds with
      | .error e => .error e
      | .ok rest => .ok ((if compatible then [] else [issueMsg c d msg]) ++ rest)

/-- The nested pairwise loop of get_compatibility_issues. -/
def pairScan : List Component → Except String (List String)
  | [] => .ok []
  | c :: rest =>
    match scanOne c rest with
    | .error e => .error e
    | .ok xs =>
      match pairScan rest with
      | .error e => .error e
      | .ok ys => .ok (xs ++ ys)

/-- The PSU block of get_compatibility_issues: direct dict indexing raises
KeyError when the PSU slot key is missing, and the warning fires when the
numeric PSU wattage is below 1.2 times the tdp-based total. The Python
float comparison psu_wattage < total * 1.2 agrees with 5 * w < 6 * total
for integer attribute values of realistic magnitude. -/
def psuIssueList (b : Build) : Except String (List String) :=
  match List.lookup "PSU" b.components with
  | none => .error "KeyError"
  | some none => .ok []
  | some (some psu) =>
    match getAttribute psu "wattage" (.vInt 0) with
    | .vInt w =>
      if 5 * w < 6 * calculate_total_wattage b then
        .ok ["PSU may be underpowered: " ++ toString w ++ "W PSU for "
          ++ toString (calculate_total_wattage b) ++ "W system"]
      else .ok []
    | .vStr _ => .ok []

def get_compatibility_issues (b : Build) : Except String (List String) :=
  match pairScan (presentComponents b) with
  | .error e => .error e
  | .ok pairMsgs =>
    match psuIssueList b with
    | .error e => .error e
    | .ok psuMsgs => .ok (pairMsgs ++ psuMsgs)

/-- All ordered pairs of a list, first component earlier in the list: the
declarative companion of the nested pairwise loop. -/
def pairsOf : List Component → List (Component × Component)
  | [] => []
  | c :: rest => rest.map (fun d => (c, d)) ++ pairsOf rest

/-- Declarative single pass over a pair list, collecting the failure
messages of is_compatible_with. -/
def issuesOfPairs : List (Component × Component) → Except String (List String)
  | [] => .ok []
  | p :: ps =>
    match is_compatible_with p.1 p.2 with
    | .error e => .error e
    | .ok (compatible, msg) =>
      match issuesOfPairs ps with
      | .error e => .error e
      | .ok rest => .ok ((if compatible then [] else [issueMsg p.1 p.2 msg]) ++ rest)

/-- The parts mapping handed to the rule engine for a Build's components. -/
def buildToParts (b : Build) : PartsMap :=
  b.components.map (fun kv => (kv.1, kv.2.map (fun c => Part.mk c.attributes)))

/-- Modelled from the spec: the derived total estimated power draw as §3
words it, the sum of each present component's power_draw attribute with
non-numeric or missing values treated as 0. Stated only to compare against
calculate_total_wattage, which the source implements over tdp. -/
def specTotalPowerDraw (b : Build) : Int :=
  ((presentComponents b).map (fun c =>
    match attrsGet c.attributes "power_draw" with
    | some (.vInt n) => n
    | _ => 0)).sum

/-! The share-key allocation of pcbuilder/db.py. -/

/-- string.ascii_uppercase + string.digits. -/
def shareChars : List Char := "ABCDEFGHIJKLMNOPQRSTUVWXYZ0123456789".data

/-- generate_share_key: eight uniform choices from the 36-character
alphabet, the randomness supplied as an oracle. -/
def generate_share_key (r : Fin 8 → Fin 36) : String :=
  String.mk ((List.finRange 8).map (fun i =>
    shareChars.get ⟨(r i).val, by
      have h36 : shareChars.length = 36 := rfl
      have hlt := (r i).isLt
      omega⟩))

/-- The outcome of running the save_build allocation loop for a given
number of iterations: the source loop has no failure exit, so the only
outcomes are an assigned fresh key or the loop still running. -/
inductive AllocOutcome where
  | assigned (key : String)
  | stillLooping
  deriving DecidableEq

/-- The while-True retry loop of save_build, unrolled a given number of
iterations: candidate number i is generated, checked against the stored
keys, and on collision the loop continues with a fresh candidate. -/
def allocFrom (taken : String → Bool) (r : Nat → Fin 8 → Fin 36) : Nat → Nat → AllocOutcome
  | _, 0 => .stillLooping
  | i, fuel + 1 =>
    let k := generate_share_key (r i)
    if taken k then allocFrom taken r (i + 1) fuel else .assigned k

/-! Operation sequences for the slot invariant. -/

inductive BOp where
  | add (c : Component)
  | remove (k : String)

def applyOp (b : Build) : BOp → Build
  | .add c => add_component b c
  | .remove k => remove_component b k

def applyOps (b : Build) (ops : List BOp) : Build :=
  ops.foldl applyOp b

/-- One slot is well formed when it is empty or holds a component whose
class category equals the slot key. -/
def slotOk (kv : String × Option Component) : Bool :=
  match kv.2 with
  | none => true
  | some c => catValue c.cat == kv.1

/-- The Build slot invariant of the claim: exactly the eight category keys,
in order, and every occupied slot matches its key. -/
def BuildInv (b : Build) : Prop :=
  b.components.map Prod.fst = categoryKeys ∧ b.components.all slotOk = true

/-! Concrete records used by the witnesses and counterexamples. -/

def psuPart400 : Part := ⟨[("wattage", .vInt 400)]⟩

def psuPart399 : Part := ⟨[("wattage", .vInt 399)]⟩

def parts400 : PartsMap :=
  [("CPU", some ⟨[("power_draw", .vInt 120)]⟩), ("GPU", some ⟨[("power_draw", .vInt 200)]⟩),
   ("PSU", some psuPart400)]

def parts399 : PartsMap :=
  [("CPU", some ⟨[("power_draw", .vInt 120)]⟩), ("GPU", some ⟨[("power_draw", .vInt 200)]⟩),
   ("PSU", some psuPart399)]

def parts401 : PartsMap :=
  [("CPU", some ⟨[("power_draw", .vInt 321)]⟩), ("PSU", some ⟨[("wattage", .vInt 401)]⟩)]

def ramC2 : Part := ⟨[("memory_type", .vStr "DDR5")]⟩

def moboC2 : Part := ⟨[("memory_type", .vStr "DDR5")]⟩

def partsC3 : PartsMap :=
  [("CPU", some ⟨[("socket", .vStr "AM5")]⟩),
   ("Motherboard", some ⟨[("socket", .vStr "AM5"), ("memory_type", .vStr "DDR5"),
                          ("memory_slots", .vInt 4), ("form_factor", .vStr "ATX")]⟩),
   ("RAM", some ⟨[("memory_type", .vStr "DDR5"), ("sticks", .vInt 2)]⟩),
   ("GPU", some ⟨[("length_mm", .vInt 300), ("power_draw", .vInt 200)]⟩),
   ("Case", some ⟨[("supported_form_factors", .vStr "ATX,Micro-ATX"), ("max_gpu_length_mm", .vInt 400)]⟩),
   ("PSU", some ⟨[("wattage", .vInt 850)]⟩)]

def partsC3Result : List (String × Bool × String) :=
  [("cpu_socket", true, "CPU and motherboard sockets match"),
   ("ram_mobo", true, "RAM appears compatible with motherboard"),
   ("case_check_0", true, "Motherboard fits case form factor"),
   ("case_check_1", true, "GPU fits in case"),
   ("psu_wattage", true, "PSU wattage appears sufficient")]

def partsPsuOnly : PartsMap := [("PSU", some ⟨[("wattage", .vInt 850)]⟩)]

def psuOnlyResult : List (String × Bool × String) :=
  [("cpu_socket", true, "CPU or motherboard missing - cannot check socket"),
   ("ram_mobo", true, "RAM or motherboard missing - cannot check memory type"),
   ("psu_wattage", true, "PSU wattage appears sufficient")]

def compPD : Component := ⟨"c1", "TestCPU", .CPU, 0, [("power_draw", .vInt 100)]⟩

def bC4 : Build := add_component (buildInit none "bld" 0) compPD

def cpu5 : Component := ⟨"c5", "SomeCPU", .CPU, 0, [("power_draw", .vInt 200)]⟩

def psu5 : Component := ⟨"p5", "SomePSU", .PSU, 0, [("wattage", .vInt 100)]⟩

def bC5 : Build := add_component (add_component (buildInit none "bld" 0) cpu5) psu5

def partsC7 : PartsMap := [("PSU", some ⟨[("wattage", .vStr "unknown")]⟩)]

def psuW7 : Part := ⟨[("wattage", .vStr "abc")]⟩

def partsW7 : PartsMap := [("PSU", some psuW7)]

def ramW7 : Part := ⟨[("memory_type", .vStr "DDR4")]⟩

def moboW7 : Part := ⟨[("memory_type", .vStr "DDR4"), ("memory_slots", .vStr "four")]⟩

def csW7 : Part := ⟨[]⟩

def gpuW7 : Part := ⟨[("length_mm", .vStr "long")]⟩

def ramSticksW7 : Part := ⟨[("memory_type", .vStr "DDR4"), ("sticks", .vStr "two")]⟩

def moboSlotsOkW7 : Part := ⟨[("memory_type", .vStr "DDR4"), ("memory_slots", .vInt 4)]⟩

def moW7 : Part := ⟨[]⟩

def csMaxBadW7 : Part := ⟨[("max_gpu_length_mm", .vStr "big")]⟩

def gpuLenOkW7 : Part := ⟨[("length_mm", .vInt 300)]⟩

def caseLstW7 : List (Bool × String) :=
  [(true, "Motherboard fits case form factor"),
   (true, "GPU / case length unknown - skipping check")]

def badDrawPartW7 : Part := ⟨[("power_draw", .vStr "lots")]⟩

def partsDrawBaseW7 : PartsMap := [("GPU", some ⟨[("power_draw", .vInt 200)]⟩)]

def demoRand : Nat → Fin 8 → Fin 36 := fun n _ => Fin.ofNat n

def takenDemo : String → Bool := fun s => s == "AAAAAAAA"

def takenAll : String → Bool := fun _ => true

def randZero : Nat → Fin 8 → Fin 36 := fun _ _ => 0

def bW10 : Build := buildInit none "seed" 7

/-! Helper lemmas. -/

theorem catValue_mem_categoryKeys (c : Cat) : catValue c ∈ categoryKeys := by
  cases c <;> simp [catValue, categoryKeys]

theorem dictSet_map_fst (l : List (String × Option Component)) (k : String)
    (v : Option Component) (h : k ∈ l.map Prod.fst) :
    (dictSet l k v).map Prod.fst = l.map Prod.fst := by
  induction l with
  | nil => simp at h
  | cons kv t ih =>
    obtain ⟨k0, v0⟩ := kv
    by_cases hk : k0 = k
    · simp [dictSet, hk]
    · have hmem : k ∈ t.map Prod.fst := by
        simp at h
        rcases h with h | h
        · exact absurd h.symm hk
        · simpa using h
      simp [dictSet, hk, ih hmem]

theorem dictSet_all_slotOk (l : List (String × Option Component)) (k : String)
    (v : Option Component) (hall : l.all slotOk = true) (hkv : slotOk (k, v) = true) :
    (dictSet l k v).all slotOk = true := by
  induction l with
  | nil => simpa [dictSet] using hkv
  | cons kv t ih =>
    obtain ⟨k0, v0⟩ := kv
    rw [List.all_cons, Bool.and_eq_true] at hall
    by_cases hk : k0 = k
    · subst hk
      simp only [dictSet, eq_self_iff_true, if_true]
      rw [List.all_cons, Bool.and_eq_true]
      exact ⟨hkv, hall.2⟩
    · simp only [dictSet, if_neg hk]
      rw [List.all_cons, Bool.and_eq_true]
      exact ⟨hall.1, ih hall.2⟩

theorem lookup_mem_fst (l : List (String × Option Component)) (k : String)
    (h : (List.lookup k l).isSome = true) : k ∈ l.map Prod.fst := by
  induction l with
  | nil => simp [List.lookup] at h
  | cons kv t ih =>
    obtain ⟨k0, v0⟩ := kv
    by_cases hk : k = k0
    · rw [List.map_cons]
      exact hk ▸ List.mem_cons_self _ _
    · have hb : (k == k0) = false := beq_false_of_ne hk
      rw [List.lookup, hb] at h
      rw [List.map_cons]
      exact List.mem_cons_of_mem _ (ih h)

theorem buildInv_add (b : Build) (c : Component) (h : BuildInv b) :
    BuildInv (add_component b c) := by
  have hmem : catValue c.cat ∈ b.components.map Prod.fst := by
    rw [h.1]
    exact catValue_mem_categoryKeys c.cat
  exact ⟨(dictSet_map_fst _ _ _ hmem).trans h.1,
         dictSet_all_slotOk _ _ _ h.2 (by simp [slotOk])⟩

theorem buildInv_remove (b : Build) (k : String) (h : BuildInv b) :
    BuildInv (remove_component b k) := by
  unfold remove_component BuildInv
  split
  · next hcond =>
    exact ⟨(dictSet_map_fst _ _ _ (lookup_mem_fst _ _ hcond)).trans h.1,
           dictSet_all_slotOk _ _ _ h.2 rfl⟩
  · exact ⟨h.1, h.2⟩

theorem buildInv_foldl (ops : List BOp) (b : Build) (h : BuildInv b) :
    BuildInv (ops.foldl applyOp b) := by
  induction ops generalizing b with
  | nil => simpa using h
  | cons op t ih =>
    simp only [List.foldl_cons]
    apply ih
    cases op with
    | add c => exact buildInv_add b c h
    | remove k => exact buildInv_remove b k h

theorem psu_total_draw_foldl (l : List (String × Option Part)) (acc : Int) :
    List.foldl psuDrawStep acc l = acc + sumPowerDraw l := by
  induction l generalizing acc with
  | nil => simp [sumPowerDraw]
  | cons kv t ih =>
    obtain ⟨k, po⟩ := kv
    by_cases hk : k = "PSU"
    · subst hk
      cases po with
      | none =>
        rw [List.foldl_cons, ih]
        simp [psuDrawStep, sumPowerDraw, List.filter_cons]
      | some p =>
        rw [List.foldl_cons, ih]
        simp [psuDrawStep, sumPowerDraw, List.filter_cons]
    · have hb : (k != "PSU") = true := by
        simp [bne_iff_ne, hk]
      cases po with
      | none =>
        rw [List.foldl_cons, ih]
        simp [psuDrawStep, hk, sumPowerDraw, List.filter_cons, hb, List.filterMap_cons]
      | some p =>
        rw [List.foldl_cons, ih]
        simp only [psuDrawStep, if_neg hk, sumPowerDraw, List.filter_cons, hb, if_true,
          List.filterMap_cons, List.map_cons, List.sum_cons, drawOf]
        omega

theorem tdp_foldl (l : List (String × Option Component)) (acc : Int) :
    List.foldl tdpStep acc l = acc + ((l.filterMap Prod.snd).map tdpOf).sum := by
  induction l generalizing acc with
  | nil => simp
  | cons kv t ih =>
    obtain ⟨k, co⟩ := kv
    cases co with
    | none =>
      rw [List.foldl_cons, ih]
      simp [tdpStep, List.filterMap_cons]
    | some c =>
      rw [List.foldl_cons, ih]
      simp only [List.filterMap_cons, List.map_cons, List.sum_cons]
      cases hv : getAttribute c "tdp" (.vInt 0) with
      | vInt n =>
        simp only [tdpStep, hv, tdpOf]
        omega
      | vStr s =>
        simp only [tdpStep, hv, tdpOf]
        omega

/-! Claim theorems. -/

/-- C1 (amended): for a parts mapping whose PSU is present and whose
wattage attribute parses as an integer, the psu_wattage rule fails exactly
when the wattage is below the truncation of 1.25 times the summed
power_draw of the other present parts: the comparison threshold is
int(1.25 * sum), not the exact real product. -/
theorem c1_psu_headroom_floor (parts : PartsMap) (psu : Part) (w : Int)
    (hpsu : partsGet parts "PSU" = some psu)
    (hw : pyInt ((partAttr psu "wattage").getD (.vInt 0)) = some w) :
    ((check_psu_wattage parts).1 = false ↔ w < Int.tdiv (sumPowerDraw parts * 5) 4) := by
  have htot : psu_total_draw parts = sumPowerDraw parts := by
    have h := psu_total_draw_foldl parts 0
    simpa [psu_total_draw] using h
  by_cases hlt : w < Int.tdiv (sumPowerDraw parts * 5) 4
  · simp [check_psu_wattage, hpsu, hw, htot, hlt]
  · simp [check_psu_wattage, hpsu, hw, htot, hlt]

/-- C1 witness: the spec's own example pair, a 400 W and a 399 W PSU
against summed draw 320. -/
theorem c1_psu_headroom_floor_witness :
    (((check_psu_wattage parts400).1 = false ↔ (400 : Int) < Int.tdiv (sumPowerDraw parts400 * 5) 4)
      ∧ ((check_psu_wattage parts399).1 = false ↔ (399 : Int) < Int.tdiv (sumPowerDraw parts399 * 5) 4)) :=
  ⟨c1_psu_headroom_floor parts400 psuPart400 400 rfl rfl,
   c1_psu_headroom_floor parts399 psuPart399 399 rfl rfl⟩

/-- C1 counterexample: draw 321 and wattage 401. The exact-real claim says
the rule must fail, since 401 is less than 1.25 times 321 (that is,
4 * 401 is less than 5 * 321), but the rule passes because the code
truncates the threshold to 401. -/
theorem c1_exact_headroom_counterexample :
    (check_psu_wattage parts401).1 = true ∧ (4 * (401 : Int) < 5 * 321) := by
  constructor
  · decide
  · decide

/-- C4 (amended): the derived total wattage of a Build is the sum over
every present component of its tdp attribute, counting only numeric
values; the power_draw attribute named by the claim is not consulted. -/
theorem c4_total_wattage_tdp (b : Build) :
    calculate_total_wattage b = ((presentComponents b).map tdpOf).sum := by
  have h := tdp_foldl b.components 0
  simpa [calculate_total_wattage, presentComponents] using h

/-- C4 counterexample: a build whose only component carries
power_draw = 100 and no tdp. The claim's formula (spec wording, embedded
as specTotalPowerDraw) gives 100, but calculate_total_wattage gives 0. -/
theorem c4_power_draw_counterexample :
    calculate_total_wattage bC4 = 0 ∧ specTotalPowerDraw bC4 = 100 := by
  constructor
  · decide
  · decide

/-- C7 (amended): a parse failure on either count degrades the ram_mobo
stick-slot comparison to a passing result, a parse failure on either
length makes the GPU clearance entry the passing cannot-verify result,
and an unparseable power_draw contributes nothing to the PSU power sum;
but a PSU whose wattage attribute fails to parse makes the psu_wattage
rule itself report a hard failure. -/
theorem c7_parse_failure_behavior :
    (∀ (parts : PartsMap) (psu : Part) (v : AttrVal),
        partsGet parts "PSU" = some psu →
        partAttr psu "wattage" = some v →
        pyInt v = none →
        check_psu_wattage parts = (false, "PSU wattage unknown"))
      ∧ (∀ ram mobo : Part,
          partAttr ram "memory_type" = partAttr mobo "memory_type" →
          (pyInt ((partAttr mobo "memory_slots").getD (.vInt 0)) = none
            ∨ pyInt ((partAttr ram "sticks").getD (.vInt 1)) = none) →
          check_ram_mobo (some ram) (some mobo) = (true, "RAM appears compatible with motherboard"))
      ∧ (∀ (mo : Option Part) (cs gpu : Part) (lst : List (Bool × String)),
          (pyInt ((partAttr gpu "length_mm").getD (.vInt 0)) = none
            ∨ pyInt ((partAttr cs "max_gpu_length_mm").getD (.vInt 0)) = none) →
          check_case_mobo_case_gpu mo (some cs) (some gpu) = .ok lst →
          (true, "GPU / case length unknown - skipping check") ∈ lst)
      ∧ (∀ (parts : PartsMap) (k : String) (p : Part),
          pyInt ((partAttr p "power_draw").getD (.vInt 0)) = none →
          k ≠ "PSU" →
          psu_total_draw ((k, some p) :: parts) = psu_total_draw parts) := by
  refine ⟨fun parts psu v h1 h2 h3 => ?_, fun ram mobo h1 h2 => ?_,
    fun mo cs gpu lst hpf hok => ?_, fun parts k p hpf hk => ?_⟩
  · simp [check_psu_wattage, h1, h2, h3]
  · rcases hs : pyInt ((partAttr mobo "memory_slots").getD (.vInt 0)) with _ | slots
    · simp [check_ram_mobo, h1, hs]
    · rcases h2 with h2 | h2
      · simp [h2] at hs
      · simp [check_ram_mobo, h1, hs, h2]
  · have hskip : gpuEntry gpu cs = (true, "GPU / case length unknown - skipping check") := by
      rcases hpf with hpf | hpf
      · simp [gpuEntry, hpf]
      · rcases hg : pyInt ((partAttr gpu "length_mm").getD (.vInt 0)) with _ | gl
        · simp [gpuEntry, hg]
        · simp [gpuEntry, hg, hpf]
    rcases mo with _ | m
    · simp only [check_case_mobo_case_gpu, caseGpuPart] at hok
      injection hok with h2
      subst h2
      simp [hskip]
    · cases hf : formFactorEntry m cs with
      | error e =>
        simp only [check_case_mobo_case_gpu, hf] at hok
        exact Except.noConfusion hok
      | ok e1 =>
        simp only [check_case_mobo_case_gpu, caseGpuPart, hf] at hok
        injection hok with h2
        subst h2
        simp [hskip]
  · simp [psu_total_draw, psuDrawStep, hpf, hk]

/-- C7 witness: concrete unparseable numeric attributes exercising every
conjunct: a PSU wattage, a motherboard slot count, a RAM stick count, a
GPU length, a case length limit, and a power_draw value. -/
theorem c7_parse_failure_behavior_witness :
    check_psu_wattage partsW7 = (false, "PSU wattage unknown")
      ∧ check_ram_mobo (some ramW7) (some moboW7) = (true, "RAM appears compatible with motherboard")
      ∧ check_ram_mobo (some ramSticksW7) (some moboSlotsOkW7)
          = (true, "RAM appears compatible with motherboard")
      ∧ ((true, "GPU / case length unknown - skipping check") ∈ caseLstW7)
      ∧ psu_total_draw (("CPU", some badDrawPartW7) :: partsDrawBaseW7)
          = psu_total_draw partsDrawBaseW7 := by
  refine ⟨c7_parse_failure_behavior.1 partsW7 psuW7 (.vStr "abc") rfl rfl rfl,
    c7_parse_failure_behavior.2.1 ramW7 moboW7 rfl (Or.inl rfl),
    c7_parse_failure_behavior.2.1 ramSticksW7 moboSlotsOkW7 rfl (Or.inr rfl),
    ?_, c7_parse_failure_behavior.2.2.2 partsDrawBaseW7 "CPU" badDrawPartW7 rfl (by decide)⟩
  exact c7_parse_failure_behavior.2.2.1 (some moW7) csMaxBadW7 gpuLenOkW7 caseLstW7
    (Or.inr rfl) rfl

/-- C7 counterexample: a PSU whose wattage attribute is the unparseable
string "unknown" makes the psu_wattage rule hard-fail instead of
degrading to a passing cannot-verify result. -/
theorem c7_psu_unknown_counterexample :
    check_psu_wattage partsC7 = (false, "PSU wattage unknown") := by
  decide

theorem enumFrom_map_fst {α β : Type _} (l : List α) (n : Nat) (f : Nat → β) :
    (List.enumFrom n l).map (fun p => f p.1) = (List.range' n l.length).map f := by
  induction l generalizing n with
  | nil => simp
  | cons a t ih => simp [List.enumFrom, List.range', ih]

theorem caseChecks_length (mo cs gp : Option Part) (lst : List (Bool × String))
    (h : check_case_mobo_case_gpu mo cs gp = .ok lst) :
    lst.length = (if mo.isSome && cs.isSome then 1 else 0)
      + (if gp.isSome && cs.isSome then 1 else 0) := by
  rcases mo with _ | m <;> rcases cs with _ | c <;> rcases gp with _ | g
  all_goals simp only [check_case_mobo_case_gpu, caseGpuPart] at h
  all_goals try (injection h with h2; subst h2; simp)
  all_goals
    cases hf : formFactorEntry m c with
    | error e =>
      simp only [hf] at h
      exact Except.noConfusion h
    | ok e1 =>
      simp only [hf] at h
      injection h with h2
      subst h2
      simp

/-- C3 (amended): every report starts with a cpu_socket entry, then a
ram_mobo entry, then between zero and two case_check entries numbered
from 0 whose count equals the number of applicable case rules (form factor
when mobo and case are present, GPU clearance when GPU and case are
present), then a final psu_wattage entry. No rule short-circuits the
later ones; the first two entries hold exactly the cpu_socket and
ram_mobo rule results, the psu_wattage result always appears, and when a
side of cpu_socket or ram_mobo is absent that entry is an informational
pass; but the case entries are omitted when a side is absent, not
reported as passes, and the fixed ids case_form_factor and
case_gpu_clearance are not used. -/
theorem c3_report_shape (parts : PartsMap) (r : List (String × Bool × String))
    (h : run_full_check parts = .ok r) :
    r.map Prod.fst
      = "cpu_socket" :: "ram_mobo" ::
          ((List.range (numCaseChecks parts)).map (fun i => "case_check_" ++ toString i)
            ++ ["psu_wattage"])
      ∧ r[0]? = some ("cpu_socket", check_cpu_mobo (partsGet parts "CPU") (partsGet parts "Motherboard"))
      ∧ r[1]? = some ("ram_mobo", check_ram_mobo (partsGet parts "RAM") (partsGet parts "Motherboard"))
      ∧ ("psu_wattage", check_psu_wattage parts) ∈ r
      ∧ ((partsGet parts "CPU" = none ∨ partsGet parts "Motherboard" = none) →
          check_cpu_mobo (partsGet parts "CPU") (partsGet parts "Motherboard")
            = (true, "CPU or motherboard missing - cannot check socket"))
      ∧ ((partsGet parts "RAM" = none ∨ partsGet parts "Motherboard" = none) →
          check_ram_mobo (partsGet parts "RAM") (partsGet parts "Motherboard")
            = (true, "RAM or motherboard missing - cannot check memory type")) := by
  unfold run_full_check at h
  cases hcc : check_case_mobo_case_gpu (partsGet parts "Motherboard") (partsGet parts "Case")
      (partsGet parts "GPU") with
  | error e => rw [hcc] at h; cases h
  | ok lst =>
    rw [hcc] at h
    have hr := (Except.ok.inj h).symm
    subst hr
    refine ⟨?_, by simp, by simp, by simp, ?_, ?_⟩
    · have hlen : lst.length = numCaseChecks parts := by
        unfold numCaseChecks
        exact caseChecks_length _ _ _ lst hcc
      have henum : ((lst.enum.map (fun p => ("case_check_" ++ toString p.1, p.2))).map Prod.fst)
          = (List.range lst.length).map (fun i => "case_check_" ++ toString i) := by
        rw [List.map_map]
        have hgen := enumFrom_map_fst lst 0 (fun i => "case_check_" ++ toString i)
        simpa [List.enum, List.range_eq_range', Function.comp] using hgen
      rw [List.map_cons, List.map_cons, List.map_append, henum, hlen]
      simp
    · intro hd
      rcases hd with h1 | h1
      · rw [h1]
        rcases partsGet parts "Motherboard" with _ | m <;> rfl
      · rw [h1]
        rcases partsGet parts "CPU" with _ | cp <;> rfl
    · intro hd
      rcases hd with h1 | h1
      · rw [h1]
        rcases partsGet parts "Motherboard" with _ | m <;> rfl
      · rw [h1]
        rcases partsGet parts "RAM" with _ | rm <;> rfl

/-- C3 witness: a full parts mapping whose report carries all five entries
under the positional case_check ids, and a PSU-only mapping whose
cpu_socket and ram_mobo entries are the informational passes for absent
sides. -/
theorem c3_report_shape_witness :
    (run_full_check partsC3 = Except.ok partsC3Result
      ∧ partsC3Result.map Prod.fst
        = "cpu_socket" :: "ram_mobo" ::
            ((List.range (numCaseChecks partsC3)).map (fun i => "case_check_" ++ toString i)
              ++ ["psu_wattage"]))
      ∧ (run_full_check partsPsuOnly = Except.ok psuOnlyResult
        ∧ psuOnlyResult[0]? = some ("cpu_socket", true, "CPU or motherboard missing - cannot check socket")
        ∧ psuOnlyResult[1]? = some ("ram_mobo", true, "RAM or motherboard missing - cannot check memory type")) := by
  refine ⟨⟨rfl, (c3_report_shape partsC3 partsC3Result rfl).1⟩, rfl, ?_, ?_⟩
  · have h := c3_report_shape partsPsuOnly psuOnlyResult rfl
    have h0 := h.2.1
    rw [h.2.2.2.2.1 (Or.inl rfl)] at h0
    exact h0
  · have h := c3_report_shape partsPsuOnly psuOnlyResult rfl
    have h1 := h.2.2.1
    rw [h.2.2.2.2.2 (Or.inl rfl)] at h1
    exact h1

/-- C3 counterexample: on the empty parts mapping the report has three
entries, not five; the case rules are omitted rather than reported as
informational passes, and no entry carries the ids case_form_factor or
case_gpu_clearance. -/
theorem c3_fixed_ids_counterexample :
    ¬ ((run_full_check ([] : PartsMap)).map (List.map Prod.fst)
        = Except.ok ["cpu_socket", "ram_mobo", "case_form_factor", "case_gpu_clearance", "psu_wattage"]) := by
  intro h
  have hev : (run_full_check ([] : PartsMap)).map (List.map Prod.fst)
      = Except.ok ["cpu_socket", "ram_mobo", "psu_wattage"] := rfl
  rw [hev] at h
  simp at h

theorem scanOne_eq (c : Component) (ds : List Component) :
    scanOne c ds = issuesOfPairs (ds.map (fun d => (c, d))) := by
  induction ds with
  | nil => rfl
  | cons d t ih =>
    simp only [scanOne, List.map_cons, issuesOfPairs]
    cases h1 : is_compatible_with c d with
    | error e => rfl
    | ok q =>
      obtain ⟨compatible, msg⟩ := q
      rw [ih]

theorem issuesOfPairs_append (xs ys : List (Component × Component)) :
    issuesOfPairs (xs ++ ys)
      = match issuesOfPairs xs with
        | .error e => .error e
        | .ok a =>
          match issuesOfPairs ys with
          | .error e => .error e
          | .ok b => .ok (a ++ b) := by
  induction xs with
  | nil =>
    cases hy : issuesOfPairs ys <;> simp [issuesOfPairs, hy]
  | cons p t ih =>
    cases h1 : is_compatible_with p.1 p.2 with
    | error e => simp [issuesOfPairs, h1]
    | ok q =>
      obtain ⟨compatible, msg⟩ := q
      have hihr := ih
      rcases h2 : issuesOfPairs t with e | a <;> rcases h3 : issuesOfPairs ys with e2 | bb <;>
        simp only [h2, h3] at hihr <;>
        simp [List.cons_append, issuesOfPairs, h1, h2, h3, hihr, List.append_assoc]

theorem pairScan_eq (l : List Component) : pairScan l = issuesOfPairs (pairsOf l) := by
  induction l with
  | nil => rfl
  | cons c t ih =>
    simp only [pairScan, pairsOf]
    rw [scanOne_eq, ih, issuesOfPairs_append]

/-- C5 (amended): get_compatibility_issues does not delegate to the §4.2
rule engine; it returns exactly the failure messages of the component
hierarchy's own pairwise is_compatible_with checks over all ordered pairs
of present components, in slot order, followed by its own PSU warning
computed from 1.2 times the tdp-based total wattage. -/
theorem c5_issues_characterization (b : Build) :
    get_compatibility_issues b
      = (match issuesOfPairs (pairsOf (presentComponents b)) with
         | .error e => .error e
         | .ok pairMsgs =>
           match psuIssueList b with
           | .error e => .error e
           | .ok psuMsgs => .ok (pairMsgs ++ psuMsgs)) := by
  unfold get_compatibility_issues
  rw [pairScan_eq]

/-- C5 counterexample: a build holding only a CPU with power_draw 200 and
a PSU with wattage 100. The rule engine run over the same components
reports the psu_wattage rule as the one failure, while the build's own
issue computation reports no issue at all, so the two are not equivalent. -/
theorem c5_engine_divergence_counterexample :
    get_compatibility_issues bC5 = Except.ok []
      ∧ (run_full_check (buildToParts bC5)).map
          (fun r => (r.filter (fun e => e.2.1 == false)).map Prod.fst)
        = Except.ok ["psu_wattage"] := by
  exact ⟨rfl, rfl⟩

theorem generate_share_key_length (r : Fin 8 → Fin 36) :
    (generate_share_key r).length = 8 := by
  simp [generate_share_key, String.length]

theorem generate_share_key_chars (r : Fin 8 → Fin 36) :
    ∀ ch ∈ (generate_share_key r).data, ch ∈ shareChars := by
  intro ch h
  simp only [generate_share_key] at h
  rw [List.mem_map] at h
  obtain ⟨i, _, rfl⟩ := h
  exact List.get_mem _ _ _

/-- C8 (amended): the allocation loop draws 8-character keys over the
36-character uppercase-and-digits alphabet and checks each candidate
against the stored keys, but on collision it retries indefinitely: it has
no failure exit, and whenever it terminates with a key, that key is the
first generated candidate that was not already taken. -/
theorem c8_alloc_loop_characterization (taken : String → Bool) (r : Nat → Fin 8 → Fin 36)
    (i fuel : Nat) (k : String) (h : allocFrom taken r i fuel = .assigned k) :
    taken k = false ∧ k.length = 8 ∧ (∀ ch ∈ k.data, ch ∈ shareChars)
      ∧ ∃ j, i ≤ j ∧ j < i + fuel ∧ k = generate_share_key (r j)
          ∧ ∀ m, i ≤ m → m < j → taken (generate_share_key (r m)) = true := by
  induction fuel generalizing i with
  | zero => simp [allocFrom] at h
  | succ n ih =>
    simp only [allocFrom] at h
    by_cases ht : taken (generate_share_key (r i)) = true
    · rw [if_pos ht] at h
      obtain ⟨h1, h2, h3, j, hj1, hj2, hj3, hj4⟩ := ih (i + 1) h
      refine ⟨h1, h2, h3, j, by omega, by omega, hj3, fun m hm1 hm2 => ?_⟩
      rcases Nat.lt_or_ge m (i + 1) with hc | hc
      · have hmi : m = i := by omega
        exact hmi ▸ ht
      · exact hj4 m hc hm2
    · rw [if_neg ht] at h
      have hk := (AllocOutcome.assigned.inj h).symm
      subst hk
      exact ⟨Bool.eq_false_iff.mpr ht, generate_share_key_length _, generate_share_key_chars _,
        i, le_refl i, by omega, rfl, fun m hm1 hm2 => absurd hm2 (by omega)⟩

/-- C8 witness: with an oracle whose first candidate collides and whose
second is fresh, the loop assigns the second candidate, and the theorem's
conclusions hold for it. -/
theorem c8_alloc_loop_characterization_witness :
    takenDemo "BBBBBBBB" = false ∧ "BBBBBBBB".length = 8
      ∧ (∀ ch ∈ "BBBBBBBB".data, ch ∈ shareChars)
      ∧ ∃ j, 0 ≤ j ∧ j < 0 + 2 ∧ "BBBBBBBB" = generate_share_key (demoRand j)
          ∧ ∀ m, 0 ≤ m → m < j → takenDemo (generate_share_key (demoRand m)) = true :=
  c8_alloc_loop_characterization takenDemo demoRand 0 2 "BBBBBBBB" rfl

/-- C8 counterexample: against a store where every key is reported taken,
the loop is still running after 100 collision retries; it never surfaces a
bounded-retry failure to the caller, contradicting the claim. -/
theorem c8_unbounded_retry_counterexample :
    allocFrom takenAll randZero 0 100 = AllocOutcome.stillLooping := rfl

/-- C2: with RAM and Motherboard present and their memory_type values
equal, an absent Motherboard.memory_slots attribute makes check_ram_mobo
report a hard failure, not a cannot-verify pass: the default 0 parses and
one stick exceeds zero slots. This contradicts the claim and the code's
own comments, which say unavailable attributes make the check skip. -/
theorem c2_missing_slots_hard_fail :
    check_ram_mobo (some ramC2) (some moboC2)
      = (false, "RAM sticks (1) exceed motherboard slots (0)") := by
  decide

/-- C6: reconstructing any component through the factory from its
serialized form yields the identical component, arbitrary extra attributes
included. -/
theorem c6_factory_roundtrip (c : Component) :
    create_component (to_dict c).id (to_dict c).name (to_dict c).category
      (to_dict c).price (to_dict c).attributes = some c := by
  obtain ⟨cid, nm, cat, price, attrs⟩ := c
  cases cat <;> rfl

/-- C9: from a fresh Build, any sequence of add_component and
remove_component operations preserves the slot invariant: the components
mapping has exactly one slot per category key, in order, and every
occupied slot holds a component whose class category equals the key. -/
theorem c9_slot_invariant (ops : List BOp) (bid : Option Int) (nm : String) (uid : Int) :
    BuildInv (applyOps (buildInit bid nm uid) ops) :=
  buildInv_foldl ops _ ⟨rfl, rfl⟩

/-- C10: the Build constructor accepts every name, including the empty
string, without validation, while the name setter rejects exactly the
names shorter than 3 characters (the empty string among them) with
ValueError and otherwise stores the new name, changing nothing else. -/
theorem c10_name_validation (bid : Option Int) (nm : String) (uid : Int)
    (b : Build) (v : String) :
    (buildInit bid nm uid).name = nm
      ∧ (v.length < 3 → set_name b v = .error "Build name must be at least 3 characters")
      ∧ (3 ≤ v.length → set_name b v = .ok { b with name := v }) := by
  refine ⟨rfl, fun h => ?_, fun h => ?_⟩
  · simp [set_name, h]
  · have hne : ¬ v = "" := by
      intro he
      subst he
      exact absurd h (by decide)
    simp [set_name, hne, Nat.not_lt.mpr h]

/-- C10 witness: a concrete empty-name construction, a concrete rejected
rename, and a concrete accepted rename. -/
theorem c10_name_validation_witness :
    (buildInit none "" 7).name = ""
      ∧ set_name bW10 "ab" = .error "Build name must be at least 3 characters"
      ∧ set_name bW10 "abcd" = .ok { bW10 with name := "abcd" } :=
  ⟨(c10_name_validation none "" 7 bW10 "x").1,
   (c10_name_validation none "nm" 7 bW10 "ab").2.1 (by decide),
   (c10_name_validation none "nm" 7 bW10 "abcd").2.2 (by decide)⟩

end PCB
